import Mathlib

/-!
Verification of the chat streaming core of the student-assistant web app:
the `ChatWebSocket` transport wrapper (services/websocket.ts), the
streaming-session message handler in `ChatView.vue`, and the pinia store
operations (stores/app.ts).  Each definition is a direct translation of
the corresponding TypeScript source.
-/

namespace ChatCore

/-- `Message` from types (interface Message): id, chatId, content,
role ('user' | 'assistant'), timestamp — all strings in the source. -/
structure Message where
  id : String
  chatId : String
  content : String
  role : String
  timestamp : String
deriving DecidableEq, Repr

/-- Payload of `assistant_end`'s `message` field on the wire:
`\x7b "id", "content", "timestamp" \x7d`. -/
structure EndPayload where
  id : String
  content : String
  timestamp : String
deriving DecidableEq, Repr

/-- `WSMessage` from services/websocket.ts: `type` is a string tag,
`content`, `message` and `message_id` are optional fields. -/
structure WSMessage where
  type : String
  content : Option String
  message : Option EndPayload
  message_id : Option String
deriving DecidableEq, Repr

/-- State of the streaming session closure in `ChatView.vue`:
`store.messages` plus the `currentAssistantMessageId` local variable. -/
structure SessionState where
  messages : List Message
  currentAssistantMessageId : Option String
deriving DecidableEq, Repr

/-- JavaScript `o || fallback` on an optional string: the fallback is
used when the field is absent or the empty string (both falsy). -/
def jsStringOr (o : Option String) (fallback : String) : String :=
  match o with
  | some s => if s = "" then fallback else s
  | none => fallback

/-- JavaScript truthiness of an optional string: absent and the empty
string are both falsy. -/
def jsTruthy (o : Option String) : Option String :=
  match o with
  | some s => if s = "" then none else some s
  | none => none

/-- `store.messages.find(p)` followed by in-place mutation of the found
element: rewrite the first element satisfying `p`, keep the rest. -/
def updateFirst {α : Type} (p : α → Bool) (f : α → α) : List α → List α
  | [] => []
  | m :: ms => if p m then f m :: ms else m :: updateFirst p f ms

/-- The `chatWs.onMessage` handler switch in `ChatView.vue` (lines
100–143).  `chatId` is the connected chat, `now` models `Date.now()`
and `nowIso` models `new Date().toISOString()` at the moment the
envelope is handled. -/
def handleWSMessage (chatId : String) (now : Nat) (nowIso : String)
    (st : SessionState) (msg : WSMessage) : SessionState :=
  if msg.type = "user_message" then
    -- user message already added before sending, so skip it here
    st
  else if msg.type = "assistant_start" then
    let aid := jsStringOr msg.message_id ("msg_" ++ toString now)
    let assistantMessage : Message :=
      { id := aid, chatId := chatId, content := "", role := "assistant", timestamp := nowIso }
    { messages := st.messages ++ [assistantMessage], currentAssistantMessageId := some aid }
  else if msg.type = "assistant_chunk" then
    -- guard: `if (message.content && currentAssistantMessageId)`
    match jsTruthy msg.content, jsTruthy st.currentAssistantMessageId with
    | some c, some aid =>
      { st with
        messages :=
          updateFirst (fun m => m.id == aid)
            (fun m => { m with content := m.content ++ c }) st.messages }
    | _, _ => st
  else if msg.type = "assistant_end" then
    -- guard: `if (message.message && currentAssistantMessageId)`;
    -- `currentAssistantMessageId = null` runs in this case either way
    match msg.message, jsTruthy st.currentAssistantMessageId with
    | some em, some aid =>
      { messages :=
          updateFirst (fun m => m.id == aid)
            (fun m => { m with content := em.content, timestamp := em.timestamp }) st.messages,
        currentAssistantMessageId := none }
    | _, _ => { st with currentAssistantMessageId := none }
  else
    -- no `default` case in the switch: any other tag is ignored
    st

/-- An `assistant_start` envelope with an optional server id. -/
def startEnv (mid : Option String) : WSMessage :=
  { type := "assistant_start", content := none, message := none, message_id := mid }

/-- An `assistant_chunk` envelope carrying a text fragment. -/
def chunkEnv (c : String) : WSMessage :=
  { type := "assistant_chunk", content := some c, message := none, message_id := none }

/-- An `assistant_end` envelope carrying the final message payload. -/
def endEnv (em : EndPayload) : WSMessage :=
  { type := "assistant_end", content := none, message := some em, message_id := none }

/-- Deliver a list of envelopes to the handler in arrival order. -/
def handleAll (chatId : String) (now : Nat) (nowIso : String)
    (st : SessionState) (msgs : List WSMessage) : SessionState :=
  msgs.foldl (handleWSMessage chatId now nowIso) st

/-- Concatenation of a list of strings in order. -/
def strConcat : List String → String
  | [] => ""
  | s :: ss => s ++ strConcat ss

/-! ## Transport: `ChatWebSocket` (services/websocket.ts) -/

/-- `WebSocket.readyState` values of the underlying browser socket. -/
inductive ReadyState where
  | connecting
  | opened
  | closing
  | closed
deriving DecidableEq, Repr

/-- The underlying browser `WebSocket` object, as far as the wrapper
inspects it. -/
structure BrowserWS where
  readyState : ReadyState
deriving DecidableEq, Repr

/-- Instance state of class `ChatWebSocket`: the `ws` reference, the
registered message handlers (modelled by their count — the view
registers a single dispatch closure per successful connect), and the
reconnect counter.  `maxReconnectAttempts` is the constant 5. -/
structure ChatWS where
  chatId : String
  ws : Option BrowserWS
  messageHandlers : Nat
  reconnectAttempts : Nat
deriving DecidableEq, Repr

/-- The `maxReconnectAttempts = 5` field initializer. -/
def maxReconnectAttempts : Nat := 5

/-- `isConnected()`: `this.ws !== null && this.ws.readyState === WebSocket.OPEN`. -/
def isConnected (c : ChatWS) : Bool :=
  match c.ws with
  | some w => decide (w.readyState = ReadyState.opened)
  | none => false

/-- `attemptReconnect()`: when `reconnectAttempts < maxReconnectAttempts`,
increment the counter and schedule `connect()` after
`1000 * reconnectAttempts` ms; otherwise do nothing.  The second
component is the delay of the scheduled timer, if one was scheduled. -/
def attemptReconnect (c : ChatWS) : ChatWS × Option Nat :=
  if c.reconnectAttempts < maxReconnectAttempts then
    let c' : ChatWS := { c with reconnectAttempts := c.reconnectAttempts + 1 }
    (c', some (1000 * c'.reconnectAttempts))
  else
    (c, none)

/-- The `onclose` callback registered in `connect()`.  The browser fires
the close event whenever the socket closes — the handler does not
distinguish an explicit `close()` (from `disconnect()`) from an
unexpected drop, and unconditionally runs `attemptReconnect()`. -/
def onCloseEvent (c : ChatWS) : ChatWS × Option Nat :=
  attemptReconnect c

/-- The `onopen` callback registered in `connect()`: reset the
reconnect counter (and the browser reports the socket open). -/
def onOpenEvent (c : ChatWS) : ChatWS :=
  { c with
    ws := c.ws.map (fun _ => { readyState := ReadyState.opened }),
    reconnectAttempts := 0 }

/-- `sendMessage(content)`: transmit only when `ws` exists and its
`readyState` is OPEN; otherwise log '✗ WebSocket is not connected' and
drop the text (nothing is queued, the instance state is untouched).
Result: the transmitted frame content, and whether the
not-connected error was logged.  (`JSON.stringify(\x7b content \x7d)`
wraps the text; escaping of special characters inside `content` is not
modelled, no claim depends on it.) -/
def sendMessage (c : ChatWS) (content : String) : Option String × Bool :=
  match c.ws with
  | some w =>
    if w.readyState = ReadyState.opened then
      (some ("\x7b\"content\":\"" ++ content ++ "\"\x7d"), false)
    else (none, true)
  | none => (none, true)

/-- `onMessage(handler)`: push a handler. -/
def registerHandler (c : ChatWS) : ChatWS :=
  { c with messageHandlers := c.messageHandlers + 1 }

/-- `disconnect()`: `ws.close()` (the socket will close and the browser
will later deliver a close event to the `onclose` callback, modelled by
`onCloseEvent`), drop the `ws` reference, and clear `messageHandlers`. -/
def disconnect (c : ChatWS) : ChatWS :=
  { c with ws := none, messageHandlers := 0 }

/-- `new ChatWebSocket(chatId)`: fields at their initializers. -/
def newChatWS (chatId : String) : ChatWS :=
  { chatId := chatId, ws := none, messageHandlers := 0, reconnectAttempts := 0 }

/-- The synchronous part of `connect()`: create the browser socket (it
starts in the CONNECTING state) and install the callbacks. -/
def startConnect (c : ChatWS) : ChatWS :=
  { c with ws := some { readyState := ReadyState.connecting } }

/-- The reconnect timer body: `this.connect()` on the instance, i.e. a
fresh browser socket replaces the old reference. -/
def runReconnectTimer (c : ChatWS) : ChatWS :=
  startConnect c

/-! ## Raw wire delivery: the `onmessage` callback -/

/-- A raw frame as seen by `JSON.parse`: either it throws (malformed
payload) or it yields a `WSMessage`-shaped value whose `type` tag is an
arbitrary string. -/
inductive RawPayload where
  | malformed
  | wellFormed (m : WSMessage)
deriving DecidableEq, Repr

/-- Apply the view's dispatch closure once per registered handler
(`this.messageHandlers.forEach((handler) => handler(message))`). -/
def dispatchAll (k : Nat) (chatId : String) (now : Nat) (nowIso : String)
    (st : SessionState) (m : WSMessage) : SessionState :=
  match k with
  | 0 => st
  | k + 1 => dispatchAll k chatId now nowIso (handleWSMessage chatId now nowIso st m) m

/-- The `onmessage` callback in `connect()`: `try` to parse, dispatch
to the registered handlers; `catch` logs 'Failed to parse WebSocket
message'.  Returns the (unchanged) transport instance, the session
state after dispatch, and whether the parse error was logged.  The
callback never closes the socket. -/
def onWireEvent (c : ChatWS) (chatId : String) (now : Nat) (nowIso : String)
    (st : SessionState) (raw : RawPayload) : ChatWS × SessionState × Bool :=
  match raw with
  | .malformed => (c, st, true)
  | .wellFormed m => (c, dispatchAll c.messageHandlers chatId now nowIso st m, false)

/-! ## View-level connect guard (`ChatView.vue`, `connectWebSocket`) -/

/-- The module-level variables of `ChatView.vue` that guard connection:
`chatWs` and `isConnecting`. -/
structure ViewState where
  chatWs : Option ChatWS
  isConnecting : Bool
deriving DecidableEq, Repr

/-- `connectWebSocket(chatId)` up to its first suspension point: return
early when the existing instance is connected, return early when a
connect is already in flight, otherwise set `isConnecting`, allocate a
fresh `ChatWebSocket` and begin `connect()`.  The boolean result
records whether a new connection attempt was started. -/
def connectWebSocket (v : ViewState) (chatId : String) : ViewState × Bool :=
  if (match v.chatWs with
      | some c => isConnected c
      | none => false) then
    (v, false)
  else if v.isConnecting then
    (v, false)
  else
    ({ chatWs := some (startConnect (newChatWS chatId)), isConnecting := true }, true)

/-! ## Store operations (stores/app.ts) -/

/-- `Chat` from types: id, projectId, name, createdAt. -/
structure ChatRec where
  id : String
  projectId : String
  name : String
  createdAt : String
deriving DecidableEq, Repr

/-- `Project` from types: id, name, createdAt. -/
structure ProjectRec where
  id : String
  name : String
  createdAt : String
deriving DecidableEq, Repr

/-- The slice of `useAppStore` state the chat provisioning path uses. -/
structure StoreState where
  projects : List ProjectRec
  currentProjectId : Option String
  chats : List ChatRec
  currentChatId : Option String
deriving DecidableEq, Repr

/-- `addChat(chat)`: push. -/
def addChat (st : StoreState) (c : ChatRec) : StoreState :=
  { st with chats := st.chats ++ [c] }

/-- `selectChat(chatId)`: set the current chat id (the localStorage
mirror is external). -/
def selectChat (st : StoreState) (cid : String) : StoreState :=
  { st with currentChatId := some cid }

/-- `addProject(project)`: push. -/
def addProject (st : StoreState) (p : ProjectRec) : StoreState :=
  { st with projects := st.projects ++ [p] }

/-- `selectProject(projectId)`: set the current project id and reset
the current chat id to null. -/
def selectProject (st : StoreState) (pid : String) : StoreState :=
  { st with currentProjectId := some pid, currentChatId := none }

/-- Response body of `apiService.createChat`, as read by the store. -/
structure ApiChatData where
  id : String
  project_id : String
  name : String
  created_at : String
deriving DecidableEq, Repr

/-- Response body of `apiService.createProject`, as read by the store. -/
structure ApiProjectData where
  id : String
  name : String
  created_at : String
deriving DecidableEq, Repr

/-- Outcome of an awaited backend call: resolved data, or a rejection
caught by the store's `catch` block. -/
inductive ApiResult (α : Type) where
  | ok (data : α)
  | err
deriving DecidableEq, Repr

/-- `createNewChat(projectId, name)`: on API success adopt the server
record; on failure fall back to a locally created chat with id
`'chat_' + Date.now()`.  Either way add it, select it, and return it —
the function never rejects. -/
def createNewChat (st : StoreState) (projectId name : String) (now : Nat)
    (nowIso : String) (api : ApiResult ApiChatData) : StoreState × ChatRec :=
  match api with
  | .ok d =>
    let newChat : ChatRec :=
      { id := d.id, projectId := d.project_id, name := d.name, createdAt := d.created_at }
    (selectChat (addChat st newChat) newChat.id, newChat)
  | .err =>
    let newChat : ChatRec :=
      { id := "chat_" ++ toString now, projectId := projectId, name := name, createdAt := nowIso }
    (selectChat (addChat st newChat) newChat.id, newChat)

/-- `createNewProject(name)`: on API success adopt the server record;
on failure fall back to a locally created project with id
`'project_' + Date.now()`.  Either way add it, select it, and return
it — the function never rejects. -/
def createNewProject (st : StoreState) (name : String) (now : Nat)
    (nowIso : String) (api : ApiResult ApiProjectData) : StoreState × ProjectRec :=
  match api with
  | .ok d =>
    let newProject : ProjectRec := { id := d.id, name := d.name, createdAt := d.created_at }
    (selectProject (addProject st newProject) newProject.id, newProject)
  | .err =>
    let newProject : ProjectRec :=
      { id := "project_" ++ toString now, name := name, createdAt := nowIso }
    (selectProject (addProject st newProject) newProject.id, newProject)

/-- Computed `currentChat`: `chats.find((c) => c.id === currentChatId) || null`. -/
def currentChat (st : StoreState) : Option ChatRec :=
  match st.currentChatId with
  | some cid => st.chats.find? (fun c => c.id == cid)
  | none => none

/-- JavaScript truthiness of `currentChat.value?.id`: absent when there
is no current chat or its id is the empty string. -/
def jsIdOf (o : Option ChatRec) : Option String :=
  match o with
  | some c => if c.id = "" then none else some c.id
  | none => none

/-- The provisioning branch of `sendMessage` in `ChatView.vue` (lines
156–168): when no current chat id is available, create a default
project if needed, then create a new chat; return the store after
provisioning and the chat id used for the message. -/
def provisionChatId (st : StoreState) (now : Nat) (nowIso : String)
    (apiP : ApiResult ApiProjectData) (apiC : ApiResult ApiChatData) :
    StoreState × String :=
  match jsIdOf (currentChat st) with
  | some cid => (st, cid)
  | none =>
    let step1 : StoreState × String :=
      match st.currentProjectId with
      | some p =>
        if p = "" then
          let r := createNewProject st "Новый проект" now nowIso apiP
          (r.1, r.2.id)
        else (st, p)
      | none =>
        let r := createNewProject st "Новый проект" now nowIso apiP
        (r.1, r.2.id)
    let r2 := createNewChat step1.1 step1.2 "Новый чат" now nowIso apiC
    (r2.1, r2.2.id)

/-! ## Concrete instances used in scenario theorems -/

/-- Delays produced by `k` successive close events delivered to the
`onclose` callback with no successful reopen in between (each failed
reconnect attempt itself ends in a close event, chaining the next
attempt). -/
def closeDelays : ChatWS → Nat → List (Option Nat)
  | _, 0 => []
  | c, k + 1 =>
    let r := attemptReconnect c
    r.2 :: closeDelays r.1 k

/-- A `ChatWebSocket` whose channel is open, with the view's dispatch
closure registered. -/
def cOpen : ChatWS :=
  { chatId := "c1", ws := some { readyState := ReadyState.opened },
    messageHandlers := 1, reconnectAttempts := 0 }

/-- View state holding a connected instance. -/
def vConnected : ViewState := { chatWs := some cOpen, isConnecting := false }

/-- View state while a connection attempt is in flight. -/
def vInflight : ViewState :=
  { chatWs := some (startConnect (newChatWS "c1")), isConnecting := true }

/-- A user message already in the transcript. -/
def userHi : Message :=
  { id := "u", chatId := "c1", content := "Hi", role := "user", timestamp := "t0" }

/-- An assistant message streamed up to `"He"`. -/
def asstA1 : Message :=
  { id := "a1", chatId := "c1", content := "He", role := "assistant", timestamp := "t1" }

/-- An in-progress assistant message with partial content `"Hel"`. -/
def asstHel : Message :=
  { id := "m1", chatId := "c1", content := "Hel", role := "assistant", timestamp := "T0" }

/-- A session with one user message and one in-progress assistant
message. -/
def stDemo : SessionState := ⟨[userHi, asstA1], some "a1"⟩

/-! ## Helper lemmas -/

theorem strAppend_assoc (a b c : String) : a ++ b ++ c = a ++ (b ++ c) := by
  apply String.ext
  simp [String.data_append]

theorem msgFallback_ne_empty (now : Nat) : ("msg_" ++ toString now) ≠ "" := by
  intro h
  have hd : "msg_".data ++ (toString now).data = "".data := by
    rw [← String.data_append, h]
  have h2 := List.append_eq_nil.mp hd
  exact absurd h2.1 (by decide)

theorem jsStringOr_ne_empty (o : Option String) (fb : String) (hfb : fb ≠ "") :
    jsStringOr o fb ≠ "" := by
  match o with
  | none => simpa [jsStringOr] using hfb
  | some s =>
    by_cases hs : s = ""
    · simpa [jsStringOr, hs] using hfb
    · simp [jsStringOr, hs]

theorem jsTruthy_some_ne {s : String} (h : s ≠ "") : jsTruthy (some s) = some s := by
  simp [jsTruthy, h]

theorem updateFirst_cons_pos {α : Type} (p : α → Bool) (f : α → α) (x : α) (l : List α)
    (h : p x = true) : updateFirst p f (x :: l) = f x :: l := by
  simp [updateFirst, h]

theorem updateFirst_cons_neg {α : Type} (p : α → Bool) (f : α → α) (x : α) (l : List α)
    (h : p x = false) : updateFirst p f (x :: l) = x :: updateFirst p f l := by
  simp [updateFirst, h]

theorem updateFirst_append_not {α : Type} (p : α → Bool) (f : α → α) :
    ∀ (pre rest : List α), (∀ m ∈ pre, p m = false) →
      updateFirst p f (pre ++ rest) = pre ++ updateFirst p f rest
  | [], _, _ => rfl
  | x :: xs, rest, h => by
    have hx : p x = false := h x (List.mem_cons_self x xs)
    rw [List.cons_append, updateFirst_cons_neg _ _ _ _ hx,
      updateFirst_append_not p f xs rest (fun m hm => h m (List.mem_cons_of_mem x hm)),
      List.cons_append]

theorem updateFirst_length {α : Type} (p : α → Bool) (f : α → α) :
    ∀ l : List α, (updateFirst p f l).length = l.length
  | [] => rfl
  | x :: xs => by
    by_cases h : p x = true
    · simp [updateFirst, h]
    · have h' : p x = false := by simpa using h
      simp [updateFirst, h', updateFirst_length p f xs]

theorem updateFirst_getElem?_ne {α : Type} (p : α → Bool) (f : α → α) :
    ∀ (l : List α) (i : Nat), (updateFirst p f l)[i]? ≠ l[i]? →
      ∃ a, l[i]? = some a ∧ p a = true ∧ l.find? p = some a
  | [], _, hne => absurd rfl hne
  | x :: xs, i, hne => by
    by_cases hx : p x = true
    · rw [updateFirst_cons_pos p f x xs hx] at hne
      cases i with
      | zero => exact ⟨x, by simp, hx, by simp [List.find?_cons_of_pos _ hx]⟩
      | succ j => exact absurd (by simp) hne
    · have hx' : p x = false := by simpa using hx
      rw [updateFirst_cons_neg p f x xs hx'] at hne
      cases i with
      | zero => exact absurd (by simp) hne
      | succ j =>
        obtain ⟨a, ha, hpa, hfind⟩ := updateFirst_getElem?_ne p f xs j (by simpa using hne)
        exact ⟨a, by simpa using ha, hpa, by simp [List.find?_cons_of_neg _ hx, hfind]⟩

theorem handle_start_step (chatId : String) (now : Nat) (nowIso : String)
    (st : SessionState) (mid : Option String) :
    handleWSMessage chatId now nowIso st (startEnv mid) =
      ⟨st.messages ++ [{ id := jsStringOr mid ("msg_" ++ toString now), chatId := chatId,
                         content := "", role := "assistant", timestamp := nowIso }],
       some (jsStringOr mid ("msg_" ++ toString now))⟩ := by
  simp [handleWSMessage, startEnv]

theorem handle_chunk_step (chatId : String) (now : Nat) (nowIso : String)
    (pre suf : List Message) (am : Message) (c : String)
    (ha : am.id ≠ "") (hc : c ≠ "") (hfresh : ∀ m ∈ pre, m.id ≠ am.id) :
    handleWSMessage chatId now nowIso ⟨pre ++ am :: suf, some am.id⟩ (chunkEnv c) =
      ⟨pre ++ { am with content := am.content ++ c } :: suf, some am.id⟩ := by
  have hpre : ∀ m ∈ pre, (fun m => m.id == am.id) m = false := by
    intro m hm
    simpa using hfresh m hm
  have h1 : updateFirst (fun m => m.id == am.id)
      (fun m => { m with content := m.content ++ c }) (pre ++ am :: suf) =
      pre ++ { am with content := am.content ++ c } :: suf := by
    rw [updateFirst_append_not _ _ pre (am :: suf) hpre,
      updateFirst_cons_pos _ _ _ _ (by simp)]
  simp [handleWSMessage, chunkEnv, jsTruthy, hc, ha, h1]

theorem handle_chunk_empty (chatId : String) (now : Nat) (nowIso : String)
    (st : SessionState) :
    handleWSMessage chatId now nowIso st (chunkEnv "") = st := by
  cases hp : st.currentAssistantMessageId <;>
    simp [handleWSMessage, chunkEnv, jsTruthy, hp]

theorem chunks_fold (chatId : String) (now : Nat) (nowIso : String) :
    ∀ (cs : List String) (pre : List Message) (am : Message),
      am.id ≠ "" →
      (∀ m ∈ pre, m.id ≠ am.id) →
      handleAll chatId now nowIso ⟨pre ++ [am], some am.id⟩ (cs.map chunkEnv) =
        ⟨pre ++ [{ am with content := am.content ++ strConcat cs }], some am.id⟩
  | [], pre, am, _, _ => by
    simp [handleAll, strConcat, String.append_empty]
  | c :: cs, pre, am, ha, hfresh => by
    by_cases hc : c = ""
    · have hstep : handleWSMessage chatId now nowIso ⟨pre ++ [am], some am.id⟩ (chunkEnv c) =
          ⟨pre ++ [am], some am.id⟩ := by
        rw [hc]; exact handle_chunk_empty chatId now nowIso _
      have hrec := chunks_fold chatId now nowIso cs pre am ha hfresh
      calc handleAll chatId now nowIso ⟨pre ++ [am], some am.id⟩ ((c :: cs).map chunkEnv)
          = handleAll chatId now nowIso ⟨pre ++ [am], some am.id⟩ (cs.map chunkEnv) := by
            simp [handleAll, hstep]
        _ = ⟨pre ++ [{ am with content := am.content ++ strConcat cs }], some am.id⟩ := hrec
        _ = ⟨pre ++ [{ am with content := am.content ++ strConcat (c :: cs) }], some am.id⟩ := by
            rw [hc]
            simp [strConcat, String.empty_append]
    · have hstep := handle_chunk_step chatId now nowIso pre [] am c ha hc hfresh
      have hrec := chunks_fold chatId now nowIso cs pre
        { am with content := am.content ++ c } ha hfresh
      calc handleAll chatId now nowIso ⟨pre ++ [am], some am.id⟩ ((c :: cs).map chunkEnv)
          = handleAll chatId now nowIso
              ⟨pre ++ [{ am with content := am.content ++ c }], some am.id⟩
              (cs.map chunkEnv) := by
            simp [handleAll, hstep]
        _ = ⟨pre ++ [{ am with content := (am.content ++ c) ++ strConcat cs }], some am.id⟩ :=
            hrec
        _ = ⟨pre ++ [{ am with content := am.content ++ strConcat (c :: cs) }], some am.id⟩ := by
            simp [strConcat, strAppend_assoc]

theorem handle_messages_shape (chatId : String) (now : Nat) (nowIso : String)
    (st : SessionState) (msg : WSMessage) :
    (handleWSMessage chatId now nowIso st msg).messages = st.messages ∨
    (∃ newMsg, (handleWSMessage chatId now nowIso st msg).messages = st.messages ++ [newMsg]) ∨
    (∃ aid f, st.currentAssistantMessageId = some aid ∧
      (handleWSMessage chatId now nowIso st msg).messages =
        updateFirst (fun m => m.id == aid) f st.messages) := by
  by_cases h1 : msg.type = "user_message"
  · left; simp [handleWSMessage, h1]
  by_cases h2 : msg.type = "assistant_start"
  · right; left
    exact ⟨{ id := jsStringOr msg.message_id ("msg_" ++ toString now), chatId := chatId,
             content := "", role := "assistant", timestamp := nowIso },
      by simp [handleWSMessage, h1, h2]⟩
  by_cases h3 : msg.type = "assistant_chunk"
  · cases hc : msg.content with
    | none => left; simp [handleWSMessage, h1, h2, h3, hc, jsTruthy]
    | some c =>
      by_cases hce : c = ""
      · left; simp [handleWSMessage, h1, h2, h3, hc, hce, jsTruthy]
      · cases hp : st.currentAssistantMessageId with
        | none => left; simp [handleWSMessage, h1, h2, h3, hc, hce, hp, jsTruthy]
        | some aid =>
          by_cases hae : aid = ""
          · left; simp [handleWSMessage, h1, h2, h3, hc, hce, hp, hae, jsTruthy]
          · right; right
            exact ⟨aid, fun m => { m with content := m.content ++ c }, rfl,
              by simp [handleWSMessage, h1, h2, h3, hc, hce, hp, hae, jsTruthy]⟩
  by_cases h4 : msg.type = "assistant_end"
  · cases hm : msg.message with
    | none => left; simp [handleWSMessage, h1, h2, h3, h4, hm]
    | some em =>
      cases hp : st.currentAssistantMessageId with
      | none => left; simp [handleWSMessage, h1, h2, h3, h4, hm, hp, jsTruthy]
      | some aid =>
        by_cases hae : aid = ""
        · left; simp [handleWSMessage, h1, h2, h3, h4, hm, hp, hae, jsTruthy]
        · right; right
          exact ⟨aid, fun m => { m with content := em.content, timestamp := em.timestamp }, rfl,
            by simp [handleWSMessage, h1, h2, h3, h4, hm, hp, hae, jsTruthy]⟩
  · left; simp [handleWSMessage, h1, h2, h3, h4]

theorem handle_unknown_type (chatId : String) (now : Nat) (nowIso : String)
    (st : SessionState) (msg : WSMessage)
    (h1 : msg.type ≠ "user_message") (h2 : msg.type ≠ "assistant_start")
    (h3 : msg.type ≠ "assistant_chunk") (h4 : msg.type ≠ "assistant_end") :
    handleWSMessage chatId now nowIso st msg = st := by
  simp [handleWSMessage, h1, h2, h3, h4]

theorem dispatchAll_id (chatId : String) (now : Nat) (nowIso : String) (m : WSMessage)
    (hstep : ∀ st : SessionState, handleWSMessage chatId now nowIso st m = st) :
    ∀ (k : Nat) (st : SessionState), dispatchAll k chatId now nowIso st m = st
  | 0, _ => rfl
  | k + 1, st => by
    rw [dispatchAll, hstep st]
    exact dispatchAll_id chatId now nowIso m hstep k st

theorem createNewChat_selects (st : StoreState) (pid name : String) (now : Nat)
    (nowIso : String) (api : ApiResult ApiChatData) :
    (createNewChat st pid name now nowIso api).1.currentChatId =
      some (createNewChat st pid name now nowIso api).2.id := by
  cases api <;> rfl

/-! ## Claim theorems -/

/-- C1: after one `assistant_start` whose (possibly fallback) id is not
already taken in the transcript, delivering any sequence of
`assistant_chunk` envelopes (before any `assistant_end`) leaves the
in-progress assistant message's content equal to the concatenation of
the chunk contents in arrival order — each chunk is appended, never
replaces the accumulated text. -/
theorem assistant_chunks_concatenate (chatId : String) (now : Nat) (nowIso : String)
    (ms0 : List Message) (ptr0 : Option String) (mid : Option String) (cs : List String)
    (hfresh : ∀ m ∈ ms0, m.id ≠ jsStringOr mid ("msg_" ++ toString now)) :
    handleAll chatId now nowIso
      (handleWSMessage chatId now nowIso ⟨ms0, ptr0⟩ (startEnv mid)) (cs.map chunkEnv) =
      ⟨ms0 ++ [{ id := jsStringOr mid ("msg_" ++ toString now), chatId := chatId,
                 content := strConcat cs, role := "assistant", timestamp := nowIso }],
       some (jsStringOr mid ("msg_" ++ toString now))⟩ := by
  rw [handle_start_step]
  have ha : jsStringOr mid ("msg_" ++ toString now) ≠ "" :=
    jsStringOr_ne_empty _ _ (msgFallback_ne_empty now)
  have h := chunks_fold chatId now nowIso cs ms0
    { id := jsStringOr mid ("msg_" ++ toString now), chatId := chatId,
      content := "", role := "assistant", timestamp := nowIso } ha hfresh
  simpa [String.empty_append] using h

/-- Witness for C1 at the spec's scenario 7 prefix: `assistant_start`
with id `m1`, chunks `"Hel"` then `"lo"`, content becomes `"Hello"`. -/
theorem assistant_chunks_concatenate_witness :
    handleAll "c1" 0 "T0"
      (handleWSMessage "c1" 0 "T0" ⟨[], none⟩ (startEnv (some "m1")))
      (["Hel", "lo"].map chunkEnv) =
      ⟨[{ id := "m1", chatId := "c1", content := "Hello", role := "assistant",
          timestamp := "T0" }], some "m1"⟩ := by
  have h := assistant_chunks_concatenate "c1" 0 "T0" [] none (some "m1") ["Hel", "lo"]
    (by simp)
  simpa [jsStringOr, strConcat] using h

/-- C2: an `assistant_end` processed while a turn is in progress
overwrites the in-progress message's content and timestamp with the
envelope's message payload (replacing the chunk concatenation) and
clears the in-progress id; a subsequent `assistant_start` appends a
new, independent message and points the session at it. -/
theorem assistant_end_finalizes (chatId : String) (now : Nat) (nowIso : String)
    (pre suf : List Message) (am : Message) (em : EndPayload)
    (ha : am.id ≠ "") (hfresh : ∀ m ∈ pre, m.id ≠ am.id) :
    handleWSMessage chatId now nowIso ⟨pre ++ am :: suf, some am.id⟩ (endEnv em) =
      ⟨pre ++ { am with content := em.content, timestamp := em.timestamp } :: suf, none⟩ ∧
    (∀ (st' : SessionState) (mid : Option String),
      handleWSMessage chatId now nowIso st' (startEnv mid) =
        ⟨st'.messages ++ [{ id := jsStringOr mid ("msg_" ++ toString now), chatId := chatId,
                            content := "", role := "assistant", timestamp := nowIso }],
         some (jsStringOr mid ("msg_" ++ toString now))⟩) := by
  constructor
  · have hpre : ∀ m ∈ pre, (fun m => m.id == am.id) m = false := by
      intro m hm
      simpa using hfresh m hm
    have h1 : updateFirst (fun m => m.id == am.id)
        (fun m => { m with content := em.content, timestamp := em.timestamp })
        (pre ++ am :: suf) =
        pre ++ { am with content := em.content, timestamp := em.timestamp } :: suf := by
      rw [updateFirst_append_not _ _ pre (am :: suf) hpre,
        updateFirst_cons_pos _ _ _ _ (by simp)]
    simp [handleWSMessage, endEnv, jsTruthy, ha, h1]
  · intro st' mid
    exact handle_start_step chatId now nowIso st' mid

/-- Witness for C2 at the spec's scenario 7 tail: `assistant_end` with
server message `"Hello!"` at `"T9"` replaces the streamed `"Hel"`. -/
theorem assistant_end_finalizes_witness :
    handleWSMessage "c1" 5 "T5" ⟨[asstHel], some "m1"⟩
      (endEnv { id := "m1", content := "Hello!", timestamp := "T9" }) =
      ⟨[{ id := "m1", chatId := "c1", content := "Hello!", role := "assistant",
          timestamp := "T9" }], none⟩ := by
  have h := (assistant_end_finalizes "c1" 5 "T5" [] [] asstHel
    { id := "m1", content := "Hello!", timestamp := "T9" } (by decide) (by simp)).1
  simpa [asstHel] using h

/-- C5: `sendMessage` on an instance that is not connected transmits
nothing and logs the not-connected error; the text is not queued (the
operation reads but never writes the instance state). -/
theorem send_requires_connection (c : ChatWS) (content : String)
    (h : isConnected c = false) :
    sendMessage c content = (none, true) := by
  cases hw : c.ws with
  | none => simp [sendMessage, hw]
  | some w =>
    have hcl : ¬ w.readyState = ReadyState.opened := by
      simpa [isConnected, hw] using h
    simp [sendMessage, hw, hcl]

/-- Witness for C5: a freshly constructed, never-connected instance. -/
theorem send_requires_connection_witness :
    sendMessage (newChatWS "c1") "hello" = (none, true) :=
  send_requires_connection (newChatWS "c1") "hello" (by decide)

/-- C6: an `assistant_chunk` or `assistant_end` delivered while no
assistant turn is in progress leaves the transcript unchanged and the
in-progress id absent (defensive no-op, no error). -/
theorem orphan_envelopes_ignored (chatId : String) (now : Nat) (nowIso : String)
    (st : SessionState) (msg : WSMessage)
    (hidle : st.currentAssistantMessageId = none)
    (htype : msg.type = "assistant_chunk" ∨ msg.type = "assistant_end") :
    handleWSMessage chatId now nowIso st msg = st ∧
    (handleWSMessage chatId now nowIso st msg).currentAssistantMessageId = none := by
  have hmain : handleWSMessage chatId now nowIso st msg = st := by
    obtain ⟨ms, ptr⟩ := st
    simp only [SessionState.mk.injEq] at hidle ⊢
    cases hidle
    rcases htype with h | h
    · cases hc : msg.content with
      | none => simp [handleWSMessage, h, jsTruthy, hc]
      | some c =>
        by_cases hce : c = "" <;> simp [handleWSMessage, h, jsTruthy, hc, hce]
    · cases hm : msg.message with
      | none => simp [handleWSMessage, h, jsTruthy, hm]
      | some em => simp [handleWSMessage, h, jsTruthy, hm]
  exact ⟨hmain, by rw [hmain]; exact hidle⟩

/-- Witness for C6: a chunk arriving with no turn in progress. -/
theorem orphan_envelopes_ignored_witness :
    handleWSMessage "c1" 0 "T" ⟨[userHi], none⟩ (chunkEnv "zzz") = ⟨[userHi], none⟩ :=
  (orphan_envelopes_ignored "c1" 0 "T" ⟨[userHi], none⟩ (chunkEnv "zzz") rfl
    (Or.inl rfl)).1

/-- C3 (code bug): after an explicit `disconnect()` on a connected
instance, `isConnected()` is false, the handlers are cleared (so no
transcript mutation flows through the instance) and `disconnect` is
idempotent — but the `onclose` callback of the socket that
`disconnect` just closed still fires and unconditionally runs
`attemptReconnect`, so a reconnect timer IS scheduled (1000 ms, attempt
counter 1), and once that timer's `connect()` succeeds the instance is
connected again, contradicting the suppress-reconnect part of the
claim. -/
theorem disconnect_still_reconnects :
    isConnected (disconnect cOpen) = false ∧
    (disconnect cOpen).messageHandlers = 0 ∧
    disconnect (disconnect cOpen) = disconnect cOpen ∧
    (onWireEvent (disconnect cOpen) "c1" 0 "T" stDemo
      (RawPayload.wellFormed (chunkEnv "x"))).2.1 = stDemo ∧
    (onCloseEvent (disconnect cOpen)).2 = some 1000 ∧
    (onCloseEvent (disconnect cOpen)).1.reconnectAttempts = 1 ∧
    isConnected (onOpenEvent (runReconnectTimer (onCloseEvent (disconnect cOpen)).1)) = true := by
  decide

/-- C4: linear reconnect backoff.  `onopen` resets the attempt counter
to 0 and no other operation does (`disconnect` and handler
registration preserve it, a close event only increments it); the delay
scheduled before attempt `n + 1` is `1000 * (n + 1)` ms while
`n < maxReconnectAttempts` and nothing is scheduled once the counter
has reached 5, as the trace of six successive failed closes
(1s, 2s, 3s, 4s, 5s, nothing) shows. -/
theorem reconnect_backoff_policy :
    (∀ c : ChatWS, (onOpenEvent c).reconnectAttempts = 0) ∧
    (∀ c : ChatWS, (disconnect c).reconnectAttempts = c.reconnectAttempts) ∧
    (∀ c : ChatWS, (registerHandler c).reconnectAttempts = c.reconnectAttempts) ∧
    (∀ (c : ChatWS) (n : Nat),
      (attemptReconnect { c with reconnectAttempts := n }).2 =
        if n < maxReconnectAttempts then some (1000 * (n + 1)) else none) ∧
    (∀ (c : ChatWS) (n : Nat),
      (attemptReconnect { c with reconnectAttempts := n }).1.reconnectAttempts =
        if n < maxReconnectAttempts then n + 1 else n) ∧
    closeDelays (newChatWS "c1") 6 =
      [some 1000, some 2000, some 3000, some 4000, some 5000, none] := by
  refine ⟨fun c => rfl, fun c => rfl, fun c => rfl, fun c n => ?_, fun c n => ?_, by decide⟩
  · by_cases h : n < maxReconnectAttempts <;> simp [attemptReconnect, h]
  · by_cases h : n < maxReconnectAttempts <;> simp [attemptReconnect, h]

/-- C7: the view-level connect guard.  Calling `connectWebSocket` with
a connected instance returns immediately with no new attempt and no
state change; calling it while a previous attempt is in flight
(`isConnecting`) is coalesced the same way. -/
theorem connect_is_coalesced (v : ViewState) (chatId : String) :
    ((∃ c, v.chatWs = some c ∧ isConnected c = true) →
      connectWebSocket v chatId = (v, false)) ∧
    (v.isConnecting = true → connectWebSocket v chatId = (v, false)) := by
  constructor
  · rintro ⟨c, hc, hconn⟩
    simp [connectWebSocket, hc, hconn]
  · intro h
    by_cases hm : (match v.chatWs with
      | some c => isConnected c
      | none => false) = true
    · simp [connectWebSocket, hm]
    · rw [Bool.not_eq_true] at hm
      simp [connectWebSocket, hm, h]

/-- Witness for C7: a connected view state, and an in-flight one. -/
theorem connect_is_coalesced_witness :
    connectWebSocket vConnected "c1" = (vConnected, false) ∧
    connectWebSocket vInflight "c1" = (vInflight, false) :=
  ⟨(connect_is_coalesced vConnected "c1").1 ⟨cOpen, rfl, by decide⟩,
   (connect_is_coalesced vInflight "c1").2 rfl⟩

/-- C8 counterexample: if an `assistant_start` reuses the id of an
existing user message, a subsequent chunk is appended to that USER
message (the `find` by id hits it first), so a role-`user` message IS
mutated after creation — the invariant as claimed fails without an
id-uniqueness assumption. -/
theorem user_message_mutated_counterexample :
    (handleAll "c1" 7 "T1" ⟨[userHi], none⟩ [startEnv (some "u"), chunkEnv "A"]).messages[0]? =
      some { id := "u", chatId := "c1", content := "HiA", role := "user",
             timestamp := "t0" } := by
  decide

/-- C8 (amended): in any step of the session, provided the first
transcript message carrying the in-progress id (when one is set) has
role `assistant` — which holds whenever message ids are unique — any
position whose message changes holds a message whose id equals the
single in-progress pointer and whose role is `assistant`; in
particular no user message is ever mutated, and only the one
pointed-to message is. -/
theorem single_writer_invariant (chatId : String) (now : Nat) (nowIso : String)
    (st : SessionState) (msg : WSMessage)
    (hrole : ∀ aid m, st.currentAssistantMessageId = some aid →
      st.messages.find? (fun x => x.id == aid) = some m → m.role = "assistant")
    (i : Nat) (hi : i < st.messages.length)
    (hne : (handleWSMessage chatId now nowIso st msg).messages[i]? ≠ st.messages[i]?) :
    ∃ m, st.messages[i]? = some m ∧
      st.currentAssistantMessageId = some m.id ∧ m.role = "assistant" := by
  rcases handle_messages_shape chatId now nowIso st msg with heq | ⟨nm, heq⟩ | ⟨aid, f, hp, heq⟩
  · rw [heq] at hne
    exact absurd rfl hne
  · rw [heq] at hne
    exact absurd (by rw [List.getElem?_append, if_pos hi]) hne
  · rw [heq] at hne
    obtain ⟨a, ha, hpa, hfind⟩ := updateFirst_getElem?_ne _ f st.messages i hne
    have hid : a.id = aid := by simpa using hpa
    exact ⟨a, ha, by rw [hp, hid], hrole aid a hp hfind⟩

/-- Witness for C8 at a well-formed session: the chunk mutates only
the pointed-to assistant message. -/
theorem single_writer_invariant_witness :
    ∃ m, stDemo.messages[1]? = some m ∧
      stDemo.currentAssistantMessageId = some m.id ∧ m.role = "assistant" := by
  have h := single_writer_invariant "c1" 0 "T" stDemo (chunkEnv "y")
    (by
      intro aid m h1 h2
      rw [show stDemo.currentAssistantMessageId = some "a1" from rfl] at h1
      injection h1 with h1
      rw [← h1] at h2
      rw [show stDemo.messages.find? (fun x => x.id == "a1") = some asstA1 from rfl] at h2
      injection h2 with h2
      rw [← h2]
      rfl)
    1 (by decide) (by decide)
  exact h

/-- C9 counterexample: a well-formed payload with an unknown `type`
tag parses successfully and is dispatched; nothing is logged (the
error flag is false), contradicting the claim that such payloads fail
with a logged `DecodeError`. -/
theorem unknown_tag_not_logged_counterexample :
    (onWireEvent cOpen "c1" 0 "T" stDemo
      (RawPayload.wellFormed
        { type := "mystery", content := none, message := none, message_id := none })).2.2 =
      false := by
  decide

/-- C9 (amended): a malformed payload fails `JSON.parse`; the error is
caught and logged, the payload is discarded, the channel and the
transcript are untouched.  A well-formed payload with an unknown type
tag is dispatched but ignored by the switch: also no transcript
mutation and an open channel, but no error is logged.  Neither case
crashes the session (the handler is a total function). -/
theorem decode_failures_contained (c : ChatWS) (chatId : String) (now : Nat)
    (nowIso : String) (st : SessionState) (m : WSMessage)
    (hunk : m.type ∉ (["user_message", "assistant_start", "assistant_chunk",
      "assistant_end"] : List String)) :
    onWireEvent c chatId now nowIso st RawPayload.malformed = (c, st, true) ∧
    onWireEvent c chatId now nowIso st (RawPayload.wellFormed m) = (c, st, false) := by
  constructor
  · rfl
  · simp only [List.mem_cons, List.not_mem_nil, or_false, not_or] at hunk
    obtain ⟨h1, h2, h3, h4⟩ := hunk
    simp [onWireEvent,
      dispatchAll_id chatId now nowIso m
        (fun st => handle_unknown_type chatId now nowIso st m h1 h2 h3 h4)
        c.messageHandlers st]

/-- Witness for C9. -/
theorem decode_failures_contained_witness :
    onWireEvent cOpen "c1" 0 "T" stDemo RawPayload.malformed = (cOpen, stDemo, true) ∧
    onWireEvent cOpen "c1" 0 "T" stDemo
      (RawPayload.wellFormed
        { type := "bogus", content := none, message := none, message_id := none }) =
      (cOpen, stDemo, false) :=
  decode_failures_contained cOpen "c1" 0 "T" stDemo
    { type := "bogus", content := none, message := none, message_id := none } (by decide)

/-- C10: `createNewChat` and `createNewProject` never reject: for every
API outcome (including rejection) the created record is added to the
store, selected and returned; on API failure the fallback id is
`'chat_' + Date.now()` / `'project_' + Date.now()`.  Consequently the
chat-provisioning step of the view's `sendMessage` always ends with a
selected chat whose id it returns. -/
theorem provisioning_never_fails :
    (∀ (st : StoreState) (pid name : String) (now : Nat) (nowIso : String)
        (api : ApiResult ApiChatData),
      (createNewChat st pid name now nowIso api).2 ∈
          (createNewChat st pid name now nowIso api).1.chats ∧
        (createNewChat st pid name now nowIso api).1.currentChatId =
          some (createNewChat st pid name now nowIso api).2.id) ∧
    (∀ (st : StoreState) (pid name : String) (now : Nat) (nowIso : String),
      (createNewChat st pid name now nowIso ApiResult.err).2.id =
        "chat_" ++ toString now) ∧
    (∀ (st : StoreState) (name : String) (now : Nat) (nowIso : String)
        (api : ApiResult ApiProjectData),
      (createNewProject st name now nowIso api).2 ∈
          (createNewProject st name now nowIso api).1.projects ∧
        (createNewProject st name now nowIso api).1.currentProjectId =
          some (createNewProject st name now nowIso api).2.id) ∧
    (∀ (st : StoreState) (name : String) (now : Nat) (nowIso : String),
      (createNewProject st name now nowIso ApiResult.err).2.id =
        "project_" ++ toString now) ∧
    (∀ (st : StoreState) (now : Nat) (nowIso : String)
        (apiP : ApiResult ApiProjectData) (apiC : ApiResult ApiChatData),
      (provisionChatId st now nowIso apiP apiC).1.currentChatId =
        some (provisionChatId st now nowIso apiP apiC).2) := by
  refine ⟨?_, ?_, ?_, ?_, ?_⟩
  · intro st pid name now nowIso api
    cases api <;> simp [createNewChat, addChat, selectChat]
  · intro st pid name now nowIso
    rfl
  · intro st name now nowIso api
    cases api <;> simp [createNewProject, addProject, selectProject]
  · intro st name now nowIso
    rfl
  · intro st now nowIso apiP apiC
    unfold provisionChatId
    cases hid : jsIdOf (currentChat st) with
    | some cid =>
      cases hcc : currentChat st with
      | none => rw [hcc] at hid; simp [jsIdOf] at hid
      | some ch =>
        rw [hcc] at hid
        by_cases he : ch.id = ""
        · simp [jsIdOf, he] at hid
        · simp [jsIdOf, he] at hid
          unfold currentChat at hcc
          cases hcid : st.currentChatId with
          | none => rw [hcid] at hcc; exact absurd hcc (by simp)
          | some cur =>
            rw [hcid] at hcc
            have hbeq := List.find?_some hcc
            have hcur : ch.id = cur := by simpa using hbeq
            rw [← hcur, hid]
    | none =>
      exact createNewChat_selects _ _ _ _ _ _

end ChatCore
